import Mathlib

/-!
Verification development for the secure-endpoint MCP server.

The definitions below are a shallow embedding of the Python sources:
  - secure_endpoint_mcp/client/auth_client.py   (JWS signing client)
  - secure_endpoint_mcp/feature_flags/manager.py (feature flag manager)
  - secure_endpoint_mcp/config/settings.py       (environment flag parsing)
  - secure_endpoint_mcp/server/mcp_server.py     (route admission policy)

Python strings are modelled as Lean strings and the Python string methods
used by the code (startswith, lower, upper, replace, the in operator) are
given explicit char-list definitions that agree with Python on the ASCII
inputs the system handles.  Python dicts are modelled as association lists
in insertion order, which matches dict iteration order; dict assignment is
modelled by dictInsert (update in place, else append), exactly the Python
semantics.  The wall clock (time.time) is passed in as an explicit
millisecond timestamp argument.
-/

namespace SecureEndpointMCP

/-- Model of Python str.startswith restricted to its one-pattern form:
frontMatches pat s is true when pat is a leading run of s. -/
def frontMatches : List Char → List Char → Bool
  | [], _ => true
  | _ :: _, [] => false
  | p :: ps, c :: cs => p == c && frontMatches ps cs

/-- Python url.startswith(pre). -/
def pyStartswith (s pre : String) : Bool :=
  frontMatches pre.data s.data

/-- Model of the Python substring test pat in s, searching every suffix. -/
def hasSub : List Char → List Char → Bool
  | pat, [] => frontMatches pat []
  | pat, c :: cs => frontMatches pat (c :: cs) || hasSub pat cs

/-- Python sub in s. -/
def pyIn (sub s : String) : Bool :=
  hasSub sub.data s.data

/-- Python str.lower, charwise; agrees with Char.toLower on ASCII. -/
def pyLowerStr (s : String) : String :=
  String.mk (s.data.map Char.toLower)

/-- Python str.upper, charwise; agrees with Char.toUpper on ASCII. -/
def pyUpperStr (s : String) : String :=
  String.mk (s.data.map Char.toUpper)

/-- Python dict assignment d[k] = v on an insertion-ordered association
list: an existing key keeps its position and gets the new value, a new key
is appended at the end. -/
def dictInsert {α : Type} (d : List (String × α)) (k : String) (v : α) :
    List (String × α) :=
  if d.any (fun kv => kv.1 == k) then
    d.map (fun kv => if kv.1 == k then (k, v) else kv)
  else
    d ++ [(k, v)]

/-- JSON values, as produced by the Python json module. -/
inductive Json where
  | str : String → Json
  | num : Int → Json
  | bool : Bool → Json
  | null : Json
  | arr : List Json → Json
  | obj : List (String × Json) → Json

/-- Hex digit used by the unicode escapes of json.dumps. -/
def hexDigit (n : Nat) : Char :=
  if n < 10 then Char.ofNat (48 + n) else Char.ofNat (87 + n)

/-- One char of a JSON string, escaped the way json.dumps (default
ensure_ascii=True) escapes it. -/
def escapeChar (c : Char) : List Char :=
  if c == '"' then ['\\', '"']
  else if c == '\\' then ['\\', '\\']
  else if c == Char.ofNat 8 then ['\\', 'b']
  else if c == Char.ofNat 9 then ['\\', 't']
  else if c == Char.ofNat 10 then ['\\', 'n']
  else if c == Char.ofNat 12 then ['\\', 'f']
  else if c == Char.ofNat 13 then ['\\', 'r']
  else if c.toNat < 32 || c.toNat > 126 then
    if c.toNat < 65536 then
      ['\\', 'u', hexDigit (c.toNat / 4096 % 16), hexDigit (c.toNat / 256 % 16),
       hexDigit (c.toNat / 16 % 16), hexDigit (c.toNat % 16)]
    else
      let n := c.toNat - 65536
      let hi := 55296 + n / 1024
      let lo := 56320 + n % 1024
      ['\\', 'u', hexDigit (hi / 4096 % 16), hexDigit (hi / 256 % 16),
       hexDigit (hi / 16 % 16), hexDigit (hi % 16),
       '\\', 'u', hexDigit (lo / 4096 % 16), hexDigit (lo / 256 % 16),
       hexDigit (lo / 16 % 16), hexDigit (lo % 16)]
  else [c]

/-- A JSON string literal as json.dumps renders it. -/
def dumpStr (s : String) : String :=
  String.mk ('"' :: (s.data.map escapeChar).flatten ++ ['"'])

mutual

/-- Model of json.dumps with the Python default separators
(comma-space between items, colon-space between key and value), which is
what auth_client passes to the JWS serializer. -/
def dumps : Json → String
  | .str s => dumpStr s
  | .num n => toString n
  | .bool b => if b then "true" else "false"
  | .null => "null"
  | .arr xs => "[" ++ dumpsArr xs ++ "]"
  | .obj kvs => "\x7b" ++ dumpsObj kvs ++ "\x7d"

/-- Comma-separated rendering of a JSON array body. -/
def dumpsArr : List Json → String
  | [] => ""
  | [x] => dumps x
  | x :: y :: xs => dumps x ++ ", " ++ dumpsArr (y :: xs)

/-- Comma-separated rendering of a JSON object body, keys in insertion
order as Python dicts preserve it. -/
def dumpsObj : List (String × Json) → String
  | [] => ""
  | [kv] => dumpStr kv.1 ++ ": " ++ dumps kv.2
  | kv :: kv2 :: kvs => dumpStr kv.1 ++ ": " ++ dumps kv.2 ++ ", " ++ dumpsObj (kv2 :: kvs)

end

/-!
Embedding of secure_endpoint_mcp/client/auth_client.py.
-/

/-- The fields of AbsoluteAuthClient that the request path reads:
token_id, token_secret, and the api_endpoint computed in the constructor. -/
structure AuthClient where
  token_id : String
  token_secret : String
  api_endpoint : String
deriving DecidableEq

/-- AbsoluteAuthClient.__init__: api_endpoint is the API host followed by
the fixed /jws/validate suffix. -/
def mkAuthClient (api_key api_secret api_host : String) : AuthClient :=
  { token_id := api_key, token_secret := api_secret,
    api_endpoint := api_host ++ "/jws/validate" }

/-- The JWS protected header dict built by _prepare_jws_payload, field for
field and in the dict insertion order of the source. -/
structure JwsHeader where
  alg : String
  kid : String
  method : String
  contentType : String
  uri : String
  queryString : String
  issuedAt : Nat
deriving DecidableEq

/-- The signed envelope.  authlib serialize_compact renders
base64url(header json) dot base64url(payload) dot base64url(hmac), and for
a fixed secret that rendering is injective in (header, payload): the hmac
is a function of the other two segments and base64url of distinct texts is
distinct.  Equality of this record therefore coincides with equality of
the produced compact strings. -/
structure SignedJws where
  header : JwsHeader
  payload : String
  secret : String
deriving DecidableEq

/-- The canonical payload string of _prepare_jws_payload:
payload = json_data if json_data else empty dict (a falsy dict argument is
exactly the empty dict), then json.dumps of a dict with the single key
data.  The body is the json_data dict itself, so the Option carries the
entry list of the dict. -/
def preparePayloadString (json_data : Option (List (String × Json))) : String :=
  let payload : List (String × Json) :=
    match json_data with
    | some d => if d.isEmpty then [] else d
    | none => []
  dumps (Json.obj [("data", Json.obj payload)])

/-- AbsoluteAuthClient._prepare_jws_payload with the wall clock passed in:
nowMillis stands for round(time.time() times 1000). -/
def prepare_jws_payload (c : AuthClient) (method path query_string : String)
    (json_data : Option (List (String × Json))) (nowMillis : Nat) : SignedJws :=
  { header :=
      { alg := "HS256"
        kid := c.token_id
        method := pyUpperStr method
        contentType := "application/json"
        uri := path
        queryString := query_string
        issuedAt := nowMillis }
    payload := preparePayloadString json_data
    secret := c.token_secret }

/-- The /v3 prefixing step at the top of AbsoluteAuthClient.request. -/
def normalizeUrl (url : String) : String :=
  if pyStartswith url "/v3" then url else "/v3" ++ url

/-- urlparse path component for the relative URLs this client receives:
everything before the first question mark. -/
def urlPath (url : String) : String :=
  String.mk (url.data.takeWhile (fun c => !(c == '?')))

/-- urlparse query component: everything after the first question mark. -/
def urlQuery (url : String) : String :=
  String.mk ((url.data.dropWhile (fun c => !(c == '?'))).drop 1)

/-- urllib urlencode on an insertion-ordered dict of plain (unreserved)
strings, which is what the callers here pass: key=value pairs joined
with ampersands. -/
def urlencodeModel (ps : List (String × String)) : String :=
  String.intercalate "&" (ps.map (fun kv => kv.1 ++ "=" ++ kv.2))

/-- The query-string merge of request: if params is truthy (present and
non-empty) its encoding is appended to a truthy (non-empty) query string
with an ampersand, or replaces an empty one. -/
def mergeQueryString (query_string : String) (params : Option (List (String × String))) :
    String :=
  match params with
  | none => query_string
  | some ps =>
    if ps.isEmpty then query_string
    else if query_string == "" then urlencodeModel ps
    else query_string ++ "&" ++ urlencodeModel ps

/-- One step of the header-merge loop of request: a caller header whose
key lower-cases to content-type is skipped, every other one is
dict-assigned into the accumulated header dict. -/
def headerStep (acc : List (String × String)) (kv : String × String) :
    List (String × String) :=
  if pyLowerStr kv.1 == "content-type" then acc else dictInsert acc kv.1 kv.2

/-- The caller headers the merge keeps: those whose key does not
lower-case to content-type. -/
def headerKeep (kv : String × String) : Bool :=
  !(pyLowerStr kv.1 == "content-type")

/-- The header merge of request: jws_headers starts as the singleton dict
content-type text/plain; every caller header whose key does not lower-case
to content-type is dict-assigned into it. -/
def mergeHeaders (headers : Option (List (String × String))) : List (String × String) :=
  let jws_headers : List (String × String) := [("content-type", "text/plain")]
  match headers with
  | none => jws_headers
  | some hs => hs.foldl headerStep jws_headers

/-- The physical outbound transport call that request hands to the
underlying httpx client: verb, destination, body, headers. -/
structure Outbound where
  verb : String
  endpoint : String
  content : SignedJws
  headers : List (String × String)
deriving DecidableEq

/-- AbsoluteAuthClient.request as the pure function from its inputs (plus
the wall clock) to the outbound transport call it performs. -/
def request (c : AuthClient) (method url : String)
    (json_data : Option (List (String × Json)))
    (params : Option (List (String × String)))
    (headers : Option (List (String × String)))
    (api_endpoint : Option String) (nowMillis : Nat) : Outbound :=
  let url := normalizeUrl url
  let path := urlPath url
  let query_string := mergeQueryString (urlQuery url) params
  let signed_payload := prepare_jws_payload c method path query_string json_data nowMillis
  let jws_headers := mergeHeaders headers
  let endpoint :=
    match api_endpoint with
    | some e => if e == "" then c.api_endpoint else e
    | none => c.api_endpoint
  { verb := "POST", endpoint := endpoint, content := signed_payload,
    headers := jws_headers }

/-!
Embedding of secure_endpoint_mcp/feature_flags/manager.py.
-/

/-- FeatureFlagManager state: the flag dict and the api-group dict, both
insertion-ordered; each group holds a set of (path, METHOD) pairs,
modelled as the list of its elements. -/
structure FFManager where
  flags : List (String × Bool)
  apiGroups : List (String × List (String × String))

/-- The dict lookup self flags get(group_name, False). -/
def lookupFlag (flags : List (String × Bool)) (group_name : String) : Bool :=
  match flags.find? (fun kv => kv.1 == group_name) with
  | some kv => kv.2
  | none => false

/-- The set membership test (api_path, http_method) in paths_with_methods,
on an upper-cased method already. -/
def memberOf (members : List (String × String)) (api_path methodUpper : String) : Bool :=
  members.any (fun pm => pm.1 == api_path && pm.2 == methodUpper)

/-- Set add for a group member list: a no-op on a present pair. -/
def addMember (members : List (String × String)) (api_path methodUpper : String) :
    List (String × String) :=
  if memberOf members api_path methodUpper then members
  else members ++ [(api_path, methodUpper)]

/-- FeatureFlagManager.register_api_group. -/
def register_api_group (mgr : FFManager) (group_name api_path http_method : String) :
    FFManager :=
  let m := pyUpperStr http_method
  if mgr.apiGroups.any (fun g => g.1 == group_name) then
    { mgr with
      apiGroups :=
        mgr.apiGroups.map
          (fun g => if g.1 == group_name then (g.1, addMember g.2 api_path m) else g) }
  else
    { mgr with apiGroups := mgr.apiGroups ++ [(group_name, [(api_path, m)])] }

/-- FeatureFlagManager.is_api_enabled: the early all-enabled return when
both dicts are empty, then the first group containing the pair decides via
flags get(group, False), else enabled by default. -/
def is_api_enabled (mgr : FFManager) (api_path http_method : String) : Bool :=
  if mgr.flags.isEmpty && mgr.apiGroups.isEmpty then true
  else
    match mgr.apiGroups.find?
        (fun g => memberOf g.2 api_path (pyUpperStr http_method)) with
    | some g => lookupFlag mgr.flags g.1
    | none => true

/-!
Embedding of secure_endpoint_mcp/config/settings.py.
-/

/-- The key transform of get_feature_flags_from_env: strip the twelve
chars of the ABS_FEATURE_ marker, lower-case, underscores to dashes. -/
def transformEnvKey (key : String) : String :=
  String.mk (((key.data.drop 12).map Char.toLower).map
    (fun c => if c == '_' then '-' else c))

/-- Settings.get_feature_flags_from_env over an explicit environment,
modelled as the insertion-ordered (name, value) list of os.environ:
collect every ABS_FEATURE_ variable as a flag whose value is the test
value lower-cased equals enabled, then, when the result dict is empty,
insert the single default flag device-reporting true. -/
def get_feature_flags_from_env (env : List (String × String)) : List (String × Bool) :=
  let result :=
    env.foldl
      (fun acc kv =>
        if pyStartswith kv.1 "ABS_FEATURE_" then
          dictInsert acc (transformEnvKey kv.1) (pyLowerStr kv.2 == "enabled")
        else acc)
      []
  if result.isEmpty && !(result.any (fun kv => kv.1 == "device-reporting")) then
    dictInsert result "device-reporting" true
  else result

/-!
Embedding of secure_endpoint_mcp/server/mcp_server.py.
-/

/-- The fastmcp MCPType values that _route_map_fn mentions or can be
handed as the default classification. -/
inductive MCPType where
  | TOOL
  | RESOURCE
  | RESOURCE_TEMPLATE
  | EXCLUDE
deriving DecidableEq

/-- MCPServer._transform_tag_name: tag lower-cased, spaces to dashes.
Python str.lower() applies the full Unicode case mappings; the charwise
Char.toLower here agrees with it exactly on ASCII tags, and statements
about fixed points of the transform are therefore restricted to ASCII. -/
def transform_tag_name (tag : String) : String :=
  String.mk ((tag.data.map Char.toLower).map (fun c => if c == ' ' then '-' else c))

/-- The flag rule and the method classification rule of _route_map_fn,
the part after the blocklist check: excluded when is_api_enabled is
false, TOOL for the five recognized verbs, else the default mcp_type. -/
def flagMethodDecision (mgr : FFManager) (path method : String) (mcp_type : MCPType) :
    MCPType :=
  if !(is_api_enabled mgr path method) then MCPType.EXCLUDE
  else if pyUpperStr method == "GET" then MCPType.TOOL
  else if ["POST", "PUT", "PATCH", "DELETE"].contains (pyUpperStr method) then MCPType.TOOL
  else mcp_type

/-- MCPServer._route_map_fn.  disableBlocklist is the setting
DISABLE_ADVANCED_API_BLOCKLIST.  The second component instruments the one
observable side effect the spec names: it is true exactly when the
is_api_enabled lookup was performed on this call, false when the blocklist
returned before reaching it. -/
def route_map_fn (disableBlocklist : Bool) (mgr : FFManager)
    (path method : String) (mcp_type : MCPType) : MCPType × Bool :=
  if pyIn "-advanced" path && !disableBlocklist then (MCPType.EXCLUDE, false)
  else if !(is_api_enabled mgr path method) then (MCPType.EXCLUDE, true)
  else if pyUpperStr method == "GET" then (MCPType.TOOL, true)
  else if ["POST", "PUT", "PATCH", "DELETE"].contains (pyUpperStr method) then
    (MCPType.TOOL, true)
  else (mcp_type, true)

/-- The flag-manager state of the end-to-end scenario of the spec: two
operations registered under the groups derived from their tags, flags as
given. -/
def c9Scenario (flags : List (String × Bool)) : FFManager :=
  register_api_group
    (register_api_group ⟨flags, []⟩
      (transform_tag_name "Device Reporting") "/reporting/devices" "GET")
    (transform_tag_name "Software Reporting") "/reporting/software" "GET"

/-!
Helper lemmas.
-/

/-- frontMatches succeeds on any extension of the pattern. -/
theorem frontMatches_self_append (p s : List Char) : frontMatches p (p ++ s) = true := by
  induction p with
  | nil => rfl
  | cons a as ih => simp [frontMatches, ih]

/-- A shared leading run cancels on both sides of frontMatches. -/
theorem frontMatches_append_both (p a b : List Char) :
    frontMatches (p ++ a) (p ++ b) = frontMatches a b := by
  induction p with
  | nil => rfl
  | cons c cs ih => simp [frontMatches, ih]

/-- Once the blocklist check has fallen through, _route_map_fn computes the
flag and method rules and the flag lookup is performed. -/
theorem route_map_fn_fallthrough (disable : Bool) (mgr : FFManager)
    (path method : String) (t : MCPType)
    (h : (pyIn "-advanced" path && !disable) = false) :
    route_map_fn disable mgr path method t = (flagMethodDecision mgr path method t, true) := by
  unfold route_map_fn flagMethodDecision
  rw [h]
  cases hie : is_api_enabled mgr path method <;>
    cases hg : (pyUpperStr method == "GET") <;>
      cases hc : (["POST", "PUT", "PATCH", "DELETE"].contains (pyUpperStr method)) <;>
        simp [hie, hg, hc]

/-!
C1.
-/

/-- C1: for every route whose path contains the -advanced marker, with the
blocklist active (DISABLE_ADVANCED_API_BLOCKLIST false) the decision is
Excluded and the flag lookup is not performed, for any flag state; with
the blocklist disabled the decision is the flag and method rules, the very
function that decides marker-free paths. -/
theorem advanced_blocklist_decision (disable : Bool) (mgr : FFManager)
    (path method : String) (t : MCPType) :
    (pyIn "-advanced" path = true → disable = false →
      route_map_fn disable mgr path method t = (MCPType.EXCLUDE, false)) ∧
    (pyIn "-advanced" path = true → disable = true →
      route_map_fn disable mgr path method t = (flagMethodDecision mgr path method t, true)) ∧
    (pyIn "-advanced" path = false →
      route_map_fn disable mgr path method t = (flagMethodDecision mgr path method t, true)) := by
  refine ⟨fun h hd => ?_, fun h hd => ?_, fun h => ?_⟩
  · subst hd; unfold route_map_fn; rw [h]; rfl
  · subst hd; exact route_map_fn_fallthrough _ _ _ _ _ (by rw [h]; rfl)
  · exact route_map_fn_fallthrough _ _ _ _ _ (by rw [h]; rfl)

/-- C1 witness: the three cases at concrete inputs. -/
theorem advanced_blocklist_decision_witness :
    route_map_fn false ⟨[], []⟩ "/x-advanced" "GET" MCPType.RESOURCE = (MCPType.EXCLUDE, false) ∧
    route_map_fn true ⟨[], []⟩ "/x-advanced" "GET" MCPType.RESOURCE =
      (flagMethodDecision ⟨[], []⟩ "/x-advanced" "GET" MCPType.RESOURCE, true) ∧
    route_map_fn false ⟨[], []⟩ "/plain" "GET" MCPType.RESOURCE =
      (flagMethodDecision ⟨[], []⟩ "/plain" "GET" MCPType.RESOURCE, true) :=
  ⟨(advanced_blocklist_decision false ⟨[], []⟩ "/x-advanced" "GET" MCPType.RESOURCE).1
      (by decide) rfl,
   (advanced_blocklist_decision true ⟨[], []⟩ "/x-advanced" "GET" MCPType.RESOURCE).2.1
      (by decide) rfl,
   (advanced_blocklist_decision false ⟨[], []⟩ "/plain" "GET" MCPType.RESOURCE).2.2
      (by decide)⟩

/-!
C7.
-/

/-- C7: with the blocklist not excluding the path and the flag rule
enabling the operation, every method upper-casing to one of the five
verbs gets decision TOOL, and every other method gets the caller-supplied
default back unchanged. -/
theorem method_classification (disable : Bool) (mgr : FFManager)
    (path method : String) (t : MCPType)
    (hb : (pyIn "-advanced" path && !disable) = false)
    (he : is_api_enabled mgr path method = true) :
    (["GET", "POST", "PUT", "PATCH", "DELETE"].contains (pyUpperStr method) = true →
      (route_map_fn disable mgr path method t).1 = MCPType.TOOL) ∧
    (["GET", "POST", "PUT", "PATCH", "DELETE"].contains (pyUpperStr method) = false →
      (route_map_fn disable mgr path method t).1 = t) := by
  rw [route_map_fn_fallthrough disable mgr path method t hb]
  constructor <;> intro hm
  · simp only [List.contains_cons, List.contains_nil, Bool.or_eq_true, beq_iff_eq,
      Bool.or_false] at hm
    rcases hm with h | h | h | h | h <;> simp [flagMethodDecision, he, h]
  · simp only [List.contains_cons, List.contains_nil, Bool.or_false, Bool.or_eq_false_iff,
      beq_eq_false_iff_ne] at hm
    obtain ⟨h1, h2, h3, h4, h5⟩ := hm
    have hg : (pyUpperStr method == "GET") = false := beq_eq_false_iff_ne.mpr h1
    have hc : (["POST", "PUT", "PATCH", "DELETE"].contains (pyUpperStr method)) = false := by
      simp only [List.contains_cons, List.contains_nil, Bool.or_false, Bool.or_eq_false_iff,
        beq_eq_false_iff_ne]
      exact ⟨h2, h3, h4, h5⟩
    show flagMethodDecision mgr path method t = t
    unfold flagMethodDecision
    rw [he, hg, hc]
    rfl

/-- C7 witness: a recognized and an unrecognized verb at concrete inputs. -/
theorem method_classification_witness :
    (route_map_fn false ⟨[], []⟩ "/p" "patch" MCPType.RESOURCE).1 = MCPType.TOOL ∧
    (route_map_fn false ⟨[], []⟩ "/p" "head" MCPType.RESOURCE).1 = MCPType.RESOURCE :=
  ⟨(method_classification false ⟨[], []⟩ "/p" "patch" MCPType.RESOURCE
      (by decide) (by decide)).1 (by decide),
   (method_classification false ⟨[], []⟩ "/p" "head" MCPType.RESOURCE
      (by decide) (by decide)).2 (by decide)⟩

/-!
C2.
-/

/-- C2 counterexample: the pair belongs to the registered group b, b has
no entry in the flag map, and still is_api_enabled returns true, because
the pair also belongs to the earlier-registered group a whose flag is
true; the claim as stated demands false here. -/
theorem flag_default_multigroup_counterexample :
    memberOf [("/p", "GET")] "/p" (pyUpperStr "GET") = true ∧
    (FFManager.mk [("a", true)] [("a", [("/p", "GET")]), ("b", [("/p", "GET")])]).apiGroups.contains
      ("b", [("/p", "GET")]) = true ∧
    (FFManager.mk [("a", true)] [("a", [("/p", "GET")]), ("b", [("/p", "GET")])]).flags.find?
      (fun kv => kv.1 == "b") = none ∧
    is_api_enabled (FFManager.mk [("a", true)] [("a", [("/p", "GET")]), ("b", [("/p", "GET")])])
      "/p" "GET" = true := by
  decide

/-- C2 amended: a pair belonging to no registered group is enabled
whatever the flags; a pair belonging to some registered group is disabled
when none of the groups containing it has an entry in the flag map (when
groups with and without entries both contain the pair, the first matching
group in registration order decides). -/
theorem flag_default_fail_open_closed (mgr : FFManager) (path method : String) :
    ((∀ g ∈ mgr.apiGroups, memberOf g.2 path (pyUpperStr method) = false) →
      is_api_enabled mgr path method = true) ∧
    (∀ g₀, g₀ ∈ mgr.apiGroups → memberOf g₀.2 path (pyUpperStr method) = true →
      (∀ g ∈ mgr.apiGroups, memberOf g.2 path (pyUpperStr method) = true →
        mgr.flags.find? (fun kv => kv.1 == g.1) = none) →
      is_api_enabled mgr path method = false) := by
  constructor
  · intro h
    unfold is_api_enabled
    split
    · rfl
    · have hnone : mgr.apiGroups.find?
          (fun g => memberOf g.2 path (pyUpperStr method)) = none :=
        List.find?_eq_none.mpr (by simpa using h)
      rw [hnone]
  · intro g₀ hmem hg₀ hflags
    unfold is_api_enabled
    have hne : mgr.apiGroups.isEmpty = false := by
      cases hgs : mgr.apiGroups with
      | nil => rw [hgs] at hmem; cases hmem
      | cons a l => rfl
    rw [if_neg (by simp [hne])]
    have hsome : (mgr.apiGroups.find?
        (fun g => memberOf g.2 path (pyUpperStr method))).isSome := by
      rw [List.find?_isSome]
      exact ⟨g₀, hmem, hg₀⟩
    obtain ⟨g, hg⟩ := Option.isSome_iff_exists.mp hsome
    rw [hg]
    have hgmem := List.mem_of_find?_eq_some hg
    have hgp := List.find?_some hg
    show lookupFlag mgr.flags g.1 = false
    unfold lookupFlag
    rw [hflags g hgmem hgp]

/-- C2 amended witness: an ungated pair is enabled, a pair gated by a
single unflagged group is disabled. -/
theorem flag_default_fail_open_closed_witness :
    is_api_enabled (FFManager.mk [("a", true)] [("a", [("/q", "GET")])]) "/p" "GET" = true ∧
    is_api_enabled (FFManager.mk [("a", true)] [("b", [("/p", "GET")])]) "/p" "GET" = false :=
  ⟨(flag_default_fail_open_closed (FFManager.mk [("a", true)] [("a", [("/q", "GET")])])
      "/p" "GET").1 (by decide),
   (flag_default_fail_open_closed (FFManager.mk [("a", true)] [("b", [("/p", "GET")])])
      "/p" "GET").2 ("b", [("/p", "GET")]) (by decide) (by decide) (by decide)⟩

/-!
C8.
-/

/-- C8 counterexample: two distinct tag strings whose derived group names
coincide, so the transform is not collision-free. -/
theorem tag_transform_collision_counterexample :
    transform_tag_name "Device Reporting" = transform_tag_name "device-reporting" ∧
    ("Device Reporting" : String) ≠ "device-reporting" := by
  decide

/-- C8 amended: the transform is total on every tag string, but it is
collision-free only away from case and spacing differences.  On ASCII
tags (Python lower-casing also folds non-ASCII letters, and can even
change the length of a non-ASCII tag) holding no upper-case letter and
no space it is the identity, keeping the tag length, hence two such
distinct tags keep distinct group names. -/
theorem tag_transform_total_injective_on_plain (t1 t2 : String)
    (h1 : ∀ c ∈ t1.data, c.toNat < 128 ∧ ¬(65 ≤ c.toNat ∧ c.toNat ≤ 90) ∧ c ≠ ' ')
    (h2 : ∀ c ∈ t2.data, c.toNat < 128 ∧ ¬(65 ≤ c.toNat ∧ c.toNat ≤ 90) ∧ c ≠ ' ') :
    (transform_tag_name t1).length = t1.length ∧
    transform_tag_name t1 = t1 ∧
    (transform_tag_name t1 = transform_tag_name t2 → t1 = t2) := by
  have hid : ∀ t : String,
      (∀ c ∈ t.data, c.toNat < 128 ∧ ¬(65 ≤ c.toNat ∧ c.toNat ≤ 90) ∧ c ≠ ' ') →
      transform_tag_name t = t := by
    intro t ht
    unfold transform_tag_name
    have hmap : ((t.data.map Char.toLower).map (fun c => if c == ' ' then '-' else c))
        = t.data := by
      rw [List.map_map]
      calc t.data.map ((fun c => if c == ' ' then '-' else c) ∘ Char.toLower)
          = t.data.map id := by
            apply List.map_congr_left
            intro c hc
            have hlow : Char.toLower c = c := by
              unfold Char.toLower
              rw [if_neg (ht c hc).2.1]
            simp [hlow, (ht c hc).2.2]
        _ = t.data := List.map_id t.data
    rw [hmap]
  refine ⟨?_, hid t1 h1, fun heq => ?_⟩
  · rw [hid t1 h1]
  · rw [hid t1 h1, hid t2 h2] at heq
    exact heq

/-- C8 amended witness at two plain lower-case ASCII tags. -/
theorem tag_transform_total_injective_on_plain_witness :
    (transform_tag_name "a-b").length = ("a-b" : String).length ∧
    transform_tag_name "a-b" = "a-b" ∧
    (transform_tag_name "a-b" = transform_tag_name "cd" → ("a-b" : String) = "cd") :=
  ⟨(tag_transform_total_injective_on_plain "a-b" "cd" (by decide) (by decide)).1,
   (tag_transform_total_injective_on_plain "a-b" "cd" (by decide) (by decide)).2.1,
   (tag_transform_total_injective_on_plain "a-b" "cd" (by decide) (by decide)).2.2⟩

/-!
C10.
-/

/-- C10: an explicit empty JSON object body signs to the very same
envelope as no body at all, with the same timestamp and other inputs:
the falsy-dict replacement makes the two calls indistinguishable in the
signature input. -/
theorem empty_body_equals_no_body (c : AuthClient) (method path query_string : String)
    (t : Nat) :
    prepare_jws_payload c method path query_string (some []) t =
    prepare_jws_payload c method path query_string none t := rfl

/-!
C5.
-/

/-- C5: with every input fixed, the timestamp included, signing is
deterministic; with only the timestamps differing, the signed envelopes
differ, since the protected header embeds issuedAt. -/
theorem signing_determinism_timestamp (c : AuthClient) (method path query_string : String)
    (body : Option (List (String × Json))) (t t1 t2 : Nat) (hne : t1 ≠ t2) :
    prepare_jws_payload c method path query_string body t =
      prepare_jws_payload c method path query_string body t ∧
    prepare_jws_payload c method path query_string body t1 ≠
      prepare_jws_payload c method path query_string body t2 := by
  refine ⟨rfl, fun h => hne ?_⟩
  exact congrArg (fun s => s.header.issuedAt) h

/-- C5 witness at concrete credentials and timestamps 0 and 1. -/
theorem signing_determinism_timestamp_witness :
    prepare_jws_payload (mkAuthClient "k" "s" "h") "GET" "/v3/p" "" none 7 =
      prepare_jws_payload (mkAuthClient "k" "s" "h") "GET" "/v3/p" "" none 7 ∧
    prepare_jws_payload (mkAuthClient "k" "s" "h") "GET" "/v3/p" "" none 0 ≠
      prepare_jws_payload (mkAuthClient "k" "s" "h") "GET" "/v3/p" "" none 1 :=
  signing_determinism_timestamp (mkAuthClient "k" "s" "h") "GET" "/v3/p" "" none 7 0 1
    (by decide)

/-!
C6.
-/

/-- C6: the prefixing step of request always yields a path starting with
/v3, leaves an already prefixed path unchanged, is idempotent, and never
manufactures a /v3/v3 double prefix out of a path that did not already
carry one. -/
theorem path_normalization_idempotent (url : String) :
    pyStartswith (normalizeUrl url) "/v3" = true ∧
    normalizeUrl (normalizeUrl url) = normalizeUrl url ∧
    (pyStartswith url "/v3" = true → normalizeUrl url = url) ∧
    (pyStartswith url "/v3/v3" = false → pyStartswith (normalizeUrl url) "/v3/v3" = false) := by
  have hpre : pyStartswith (normalizeUrl url) "/v3" = true := by
    unfold normalizeUrl
    cases h : pyStartswith url "/v3" with
    | true => exact h
    | false =>
      show pyStartswith ("/v3" ++ url) "/v3" = true
      unfold pyStartswith
      rw [String.data_append]
      exact frontMatches_self_append ("/v3" : String).data url.data
  refine ⟨hpre, ?_, ?_, ?_⟩
  · show (if pyStartswith (normalizeUrl url) "/v3" = true then normalizeUrl url
      else "/v3" ++ normalizeUrl url) = normalizeUrl url
    rw [hpre]
    rfl
  · intro h
    show (if pyStartswith url "/v3" = true then url else "/v3" ++ url) = url
    rw [h]
    rfl
  · intro h
    unfold normalizeUrl
    cases hv : pyStartswith url "/v3" with
    | true => exact h
    | false =>
      show pyStartswith ("/v3" ++ url) "/v3/v3" = false
      unfold pyStartswith
      rw [String.data_append]
      have hsplit : ("/v3/v3" : String).data = ("/v3" : String).data ++ ("/v3" : String).data := by
        decide
      rw [hsplit, frontMatches_append_both]
      exact hv

/-- C6 witness: prefixing, idempotence, and double prefix avoidance at
concrete paths. -/
theorem path_normalization_idempotent_witness :
    pyStartswith (normalizeUrl "/abc") "/v3" = true ∧
    normalizeUrl "/v3/x" = "/v3/x" ∧
    pyStartswith (normalizeUrl "/abc") "/v3/v3" = false :=
  ⟨(path_normalization_idempotent "/abc").1,
   (path_normalization_idempotent "/v3/x").2.2.1 (by decide),
   (path_normalization_idempotent "/abc").2.2.2 (by decide)⟩

/-!
C3.
-/

/-- C3: the canonical payload string is the json.dumps of a single-key
object data holding the body: exactly the eleven chars of data-empty for
a missing body, the expected literal for the key-value body of the spec,
and in general the dumps of the data wrapper around the body dict. -/
theorem canonical_payload_envelope (d : List (String × Json)) :
    preparePayloadString none = "\x7b\"data\": \x7b\x7d\x7d" ∧
    preparePayloadString (some [("key", Json.str "value")]) =
      "\x7b\"data\": \x7b\"key\": \"value\"\x7d\x7d" ∧
    preparePayloadString (some d) = dumps (Json.obj [("data", Json.obj d)]) ∧
    preparePayloadString none = dumps (Json.obj [("data", Json.obj [])]) := by
  refine ⟨by decide, by decide, ?_, rfl⟩
  cases d with
  | nil => rfl
  | cons kv kvs => rfl

/-!
C9.
-/

/-- The environment scan of get_feature_flags_from_env leaves the result
dict untouched when no variable carries the ABS_FEATURE_ marker. -/
theorem foldl_env_no_marker (env : List (String × String))
    (acc : List (String × Bool))
    (h : ∀ kv ∈ env, pyStartswith kv.1 "ABS_FEATURE_" = false) :
    env.foldl
      (fun acc kv =>
        if pyStartswith kv.1 "ABS_FEATURE_" then
          dictInsert acc (transformEnvKey kv.1) (pyLowerStr kv.2 == "enabled")
        else acc)
      acc = acc := by
  induction env generalizing acc with
  | nil => rfl
  | cons kv rest ih =>
    have hkv := h kv (List.mem_cons_self kv rest)
    simp only [List.foldl_cons, hkv]
    exact ih acc (fun kv2 hm => h kv2 (List.mem_cons_of_mem kv hm))

/-- C9: with no ABS_FEATURE_ variable in the environment, the derived
flag state enables exactly the one group device-reporting; an operation
tagged Device Reporting then gets decision TOOL and an operation tagged
Software Reporting gets decision Excluded. -/
theorem default_flags_end_to_end (env : List (String × String))
    (henv : ∀ kv ∈ env, pyStartswith kv.1 "ABS_FEATURE_" = false) :
    get_feature_flags_from_env env = [("device-reporting", true)] ∧
    route_map_fn false (c9Scenario (get_feature_flags_from_env env))
      "/reporting/devices" "GET" MCPType.RESOURCE = (MCPType.TOOL, true) ∧
    route_map_fn false (c9Scenario (get_feature_flags_from_env env))
      "/reporting/software" "GET" MCPType.RESOURCE = (MCPType.EXCLUDE, true) := by
  have hflags : get_feature_flags_from_env env = [("device-reporting", true)] := by
    unfold get_feature_flags_from_env
    rw [foldl_env_no_marker env [] henv]
    rfl
  refine ⟨hflags, ?_, ?_⟩ <;> rw [hflags] <;> decide

/-- C9 witness in an environment with only unrelated variables. -/
theorem default_flags_end_to_end_witness :
    get_feature_flags_from_env [("HOME", "/root"), ("LOG_LEVEL", "info")] =
      [("device-reporting", true)] ∧
    route_map_fn false
      (c9Scenario (get_feature_flags_from_env [("HOME", "/root"), ("LOG_LEVEL", "info")]))
      "/reporting/devices" "GET" MCPType.RESOURCE = (MCPType.TOOL, true) ∧
    route_map_fn false
      (c9Scenario (get_feature_flags_from_env [("HOME", "/root"), ("LOG_LEVEL", "info")]))
      "/reporting/software" "GET" MCPType.RESOURCE = (MCPType.EXCLUDE, true) :=
  default_flags_end_to_end [("HOME", "/root"), ("LOG_LEVEL", "info")] (by decide)

/-!
C4.
-/

/-- C4 counterexample: with the empty string supplied as the api_endpoint
override, the outbound call does not target the override; Python
truthiness sends it to the fixed validation endpoint instead. -/
theorem transport_empty_override_counterexample :
    (request (mkAuthClient "k" "s" "https://api.absolute.com") "GET" "/foo"
        none none none (some "") 0).endpoint ≠ "" ∧
    (request (mkAuthClient "k" "s" "https://api.absolute.com") "GET" "/foo"
        none none none (some "") 0).endpoint = "https://api.absolute.com/jws/validate" := by
  decide

/-- With keys of hs fresh for acc, the header loop of request only ever
appends: it adds exactly the caller headers that do not lower-case to
content-type, in order, after acc. -/
theorem foldl_headers (hs : List (String × String)) (acc : List (String × String))
    (hnd : (hs.map Prod.fst).Nodup)
    (hdisj : ∀ kv ∈ hs, (pyLowerStr kv.1 == "content-type") = false →
      acc.any (fun p => p.1 == kv.1) = false) :
    hs.foldl headerStep acc = acc ++ hs.filter headerKeep := by
  induction hs generalizing acc with
  | nil => simp
  | cons kv rest ih =>
    have hndtail : (rest.map Prod.fst).Nodup := by
      rw [List.map_cons] at hnd
      exact (List.nodup_cons.mp hnd).2
    have hfresh : kv.1 ∉ rest.map Prod.fst := by
      rw [List.map_cons] at hnd
      exact (List.nodup_cons.mp hnd).1
    rw [List.foldl_cons, List.filter_cons]
    cases h : (pyLowerStr kv.1 == "content-type") with
    | true =>
      have hstep : headerStep acc kv = acc := by simp [headerStep, h]
      have hkeep : headerKeep kv = false := by simp [headerKeep, h]
      rw [hstep, hkeep, if_neg Bool.false_ne_true]
      exact ih acc hndtail
        (fun kv2 hm hl => hdisj kv2 (List.mem_cons_of_mem kv hm) hl)
    | false =>
      have hany := hdisj kv (List.mem_cons_self kv rest) h
      have hstep : headerStep acc kv = acc ++ [kv] := by
        simp [headerStep, dictInsert, h, hany]
      have hkeep : headerKeep kv = true := by simp [headerKeep, h]
      have hdisj2 : ∀ kv2 ∈ rest, (pyLowerStr kv2.1 == "content-type") = false →
          ((acc ++ [kv]).any (fun p => p.1 == kv2.1)) = false := by
        intro kv2 hm hl
        rw [List.any_append, hdisj kv2 (List.mem_cons_of_mem kv hm) hl]
        simp only [List.any_cons, List.any_nil, Bool.or_false, Bool.false_or]
        refine beq_eq_false_iff_ne.mpr (fun he => ?_)
        rw [he] at hfresh
        exact hfresh (List.mem_map_of_mem Prod.fst hm)
      rw [hstep, hkeep, if_pos rfl, ih (acc ++ [kv]) hndtail hdisj2, List.append_assoc]
      rfl

/-- The merged outbound header dict is text/plain content-type followed
by the caller headers that are not a content-type in any casing. -/
theorem mergeHeaders_eq_filter (hs : List (String × String))
    (hnd : (hs.map Prod.fst).Nodup) :
    mergeHeaders (some hs) =
      ("content-type", "text/plain") :: hs.filter headerKeep := by
  have hdisj : ∀ kv ∈ hs, (pyLowerStr kv.1 == "content-type") = false →
      (([("content-type", "text/plain")] : List (String × String)).any
        (fun p => p.1 == kv.1)) = false := by
    intro kv hm hl
    simp only [List.any_cons, List.any_nil, Bool.or_false]
    refine beq_eq_false_iff_ne.mpr (fun he => ?_)
    have hkc : pyLowerStr kv.1 = "content-type" := by rw [← he]; decide
    rw [hkc] at hl
    exact absurd hl (by decide)
  show hs.foldl headerStep [("content-type", "text/plain")] = _
  rw [foldl_headers hs [("content-type", "text/plain")] hnd hdisj]
  rfl

/-- In a list with pairwise distinct keys, a member pair is the answer of
the lookup for its key. -/
theorem findKeyNodup (l : List (String × String)) (kv : String × String)
    (hnd : (l.map Prod.fst).Nodup) (hmem : kv ∈ l) :
    l.find? (fun p => p.1 == kv.1) = some kv := by
  induction l with
  | nil => cases hmem
  | cons a rest ih =>
    have hndtail : (rest.map Prod.fst).Nodup := by
      rw [List.map_cons] at hnd
      exact (List.nodup_cons.mp hnd).2
    rcases List.mem_cons.mp hmem with h | h
    · subst h
      exact List.find?_cons_of_pos rest (by simp)
    · have hne : (a.1 == kv.1) = false := by
        refine beq_eq_false_iff_ne.mpr (fun he => ?_)
        rw [List.map_cons] at hnd
        have hk : kv.1 ∈ rest.map Prod.fst := List.mem_map_of_mem Prod.fst h
        rw [← he] at hk
        exact (List.nodup_cons.mp hnd).1 hk
      rw [List.find?_cons_of_neg rest (by rw [hne]; exact Bool.false_ne_true)]
      exact ih hndtail h

/-- C4 amended: the physical call of request always uses the POST verb;
it targets the api_endpoint override when one is given and non-empty, and
the fixed validation endpoint when the override is absent or empty (the
one correction: an empty-string override is falsy in Python and falls
back); the body is the signed envelope of the normalized path and merged
query; the outbound header dict is exactly text/plain content-type
followed by the caller headers that are not content-type in any casing,
so every surviving caller header is found under its key and no caller
content-type ever replaces text/plain. -/
theorem transport_redirection_header_merge (c : AuthClient) (method url : String)
    (json_data : Option (List (String × Json)))
    (params : Option (List (String × String)))
    (hs : List (String × String)) (api_ep : Option String) (t : Nat)
    (hnd : (hs.map Prod.fst).Nodup) :
    (request c method url json_data params (some hs) api_ep t).verb = "POST" ∧
    (∀ e, api_ep = some e → e ≠ "" →
      (request c method url json_data params (some hs) api_ep t).endpoint = e) ∧
    (api_ep = none ∨ api_ep = some "" →
      (request c method url json_data params (some hs) api_ep t).endpoint = c.api_endpoint) ∧
    (request c method url json_data params (some hs) api_ep t).content =
      prepare_jws_payload c method (urlPath (normalizeUrl url))
        (mergeQueryString (urlQuery (normalizeUrl url)) params) json_data t ∧
    (request c method url json_data params (some hs) api_ep t).headers =
      ("content-type", "text/plain") :: hs.filter headerKeep ∧
    (∀ kv ∈ hs, (pyLowerStr kv.1 == "content-type") = false →
      ((request c method url json_data params (some hs) api_ep t).headers).find?
        (fun p => p.1 == kv.1) = some kv) := by
  have hheaders : (request c method url json_data params (some hs) api_ep t).headers =
      ("content-type", "text/plain") :: hs.filter headerKeep :=
    mergeHeaders_eq_filter hs hnd
  refine ⟨rfl, ?_, ?_, rfl, hheaders, ?_⟩
  · intro e he hne
    subst he
    show (if (e == "") = true then c.api_endpoint else e) = e
    rw [beq_eq_false_iff_ne.mpr hne]
    rfl
  · rintro (he | he) <;> subst he <;> rfl
  · intro kv hm hl
    rw [hheaders]
    have hct : ((("content-type", "text/plain") : String × String).1 == kv.1) = false := by
      refine beq_eq_false_iff_ne.mpr (fun he => ?_)
      have hkc : pyLowerStr kv.1 = "content-type" := by rw [← he]; decide
      rw [hkc] at hl
      exact absurd hl (by decide)
    rw [List.find?_cons_of_neg _ (by rw [hct]; exact Bool.false_ne_true)]
    refine findKeyNodup _ kv ?_ ?_
    · exact (List.Sublist.map Prod.fst (List.filter_sublist hs)).nodup hnd
    · exact List.mem_filter.mpr ⟨hm, by unfold headerKeep; rw [hl]; rfl⟩

/-- C4 witness: a call with a non-empty override, one custom header, and
a caller content-type that fails to displace text/plain. -/
theorem transport_redirection_header_merge_witness :
    (request (mkAuthClient "k" "s" "h") "get" "/foo" none none
      (some [("X-Custom", "1"), ("Content-Type", "application/json")])
      (some "https://alt") 5).verb = "POST" ∧
    (request (mkAuthClient "k" "s" "h") "get" "/foo" none none
      (some [("X-Custom", "1"), ("Content-Type", "application/json")])
      (some "https://alt") 5).endpoint = "https://alt" ∧
    (request (mkAuthClient "k" "s" "h") "get" "/foo" none none
      (some [("X-Custom", "1"), ("Content-Type", "application/json")])
      (some "https://alt") 5).headers =
      [("content-type", "text/plain"), ("X-Custom", "1")] ∧
    ((request (mkAuthClient "k" "s" "h") "get" "/foo" none none
      (some [("X-Custom", "1"), ("Content-Type", "application/json")])
      (some "https://alt") 5).headers).find? (fun p => p.1 == "X-Custom") =
      some ("X-Custom", "1") := by
  have h := transport_redirection_header_merge (mkAuthClient "k" "s" "h") "get" "/foo"
    none none [("X-Custom", "1"), ("Content-Type", "application/json")]
    (some "https://alt") 5 (by decide)
  exact ⟨h.1, h.2.1 "https://alt" rfl (by decide), h.2.2.2.2.1.trans (by decide),
    h.2.2.2.2.2 ("X-Custom", "1") (by decide) (by decide)⟩

end SecureEndpointMCP
